import Mathlib

set_option maxRecDepth 8192

/-!
Verification of the conversion-invocation layer of `gradio_app.py`
(pdf-to-html Gradio wrapper).

The Python functions `convert_pdf`, `convert_folder`, `generate_command`,
`handle_convert` and `handle_batch` are shallowly embedded here.  External
effects (launching the executable, `os.path.isdir`, `Path.stat`, `open`,
`Path.iterdir`) are an explicit environment `Env`; each invoker also
returns the list of command lines it handed to `subprocess.run`, so that
statements about what was (or was not) executed are expressible.
Python exceptions are `Except PyExc`; generators are a `GenResult`
recording the yielded strings, the generator return value, and the
exception (if any) that escapes uncaught.

Note on the message strings: the repository file is double-encoded, so the
emoji of the status messages appear in the source as literal mojibake
characters (for example U+201A U+00F9 U+00E5 where a cross mark was
intended).  The embedding reproduces those exact code points.
-/

/-- Result of a completed external process: exit status and captured
standard output / standard error (`subprocess.run(..., capture_output=True,
text=True)`).  Signal terminations (negative `returncode`) are outside the
model, so the status is a `Nat`. -/
structure ProcResult where
  returncode : Nat
  stdout : String
  stderr : String
deriving DecidableEq

/-- A Python exception value, carrying its `str(e)` rendering. -/
inductive PyExc where
  | fileNotFoundError (msg : String)
  | oserror (msg : String)
  | exception (msg : String)
deriving DecidableEq

/-- The f-string rendering `f"{e}"` of an exception. -/
def pyStr : PyExc → String
  | .fileNotFoundError m => m
  | .oserror m => m
  | .exception m => m

/-- The external world as seen by the invoker layer: `proc` is the attempt
to launch a command line (an `OSError` such as a missing executable is the
`.error` case, otherwise the process runs to a `ProcResult`); `isdir`,
`stat` (file size, `none` when missing), `readFile` (`open` + `read`) and
`iterdir` model the filesystem calls the handlers make. -/
structure Env where
  proc : List String → Except PyExc ProcResult
  isdir : String → Bool
  stat : String → Option Nat
  readFile : String → Except PyExc String
  iterdir : String → Except PyExc (List String)

/-- Outcome of one run of a generator function: the strings it yielded, the
value of its `return` statement (if any), and the exception that escaped
uncaught (if any). -/
structure GenResult where
  yields : List String
  retval : Option String
  exc : Option PyExc
deriving DecidableEq

/-- Constant `PDF2HTML_SCRIPT = "/opt/pdf2html/pdf2html"` (line 28). -/
def PDF2HTML_SCRIPT : String := "/opt/pdf2html/pdf2html"

/-- Python `repr` of a Python list of strings, as it appears inside
`str(CalledProcessError)` (plain strings, single-quoted). -/
def pyListRepr (xs : List String) : String :=
  "[" ++ String.intercalate ", " (xs.map (fun s => "\x27" ++ s ++ "\x27")) ++ "]"

/-- Rendering `str(subprocess.CalledProcessError(returncode, cmd))` for a normal
(non-signal) exit: `Command '<cmd>' returned non-zero exit status <n>.`
Note that the captured stdout/stderr of the failed process are not part of
this rendering. -/
def calledProcessErrorStr (cmd : List String) (returncode : Nat) : String :=
  "Command \x27" ++ pyListRepr cmd ++ "\x27 returned non-zero exit status " ++
    toString returncode ++ "."

/-- The command line built by `convert_pdf` (lines 32-46): positional pdf
path, then `-o <output_dir>` if `output_dir` is truthy, `--body-only` /
`--no-toc` if set, and `--theme <theme>` if `theme` is truthy. -/
def convert_pdf_cmd (pdf_path output_dir : String) (body_only no_toc : Bool)
    (theme : String) : List String :=
  [PDF2HTML_SCRIPT, pdf_path]
    ++ (if output_dir ≠ "" then ["-o", output_dir] else [])
    ++ (if body_only then ["--body-only"] else [])
    ++ (if no_toc then ["--no-toc"] else [])
    ++ (if theme ≠ "" then ["--theme", theme] else [])

/-- Function `convert_pdf` (lines 30-52).  `subprocess.run(cmd, ..., check=True)`
raises `CalledProcessError` on a non-zero exit, which the function catches
and turns into `f"Error: {e}"`; an `OSError` from the launch itself (for
example a missing executable) is not a `CalledProcessError` and escapes.
The second component is the list of command lines handed to
`subprocess.run`. -/
def convert_pdf (env : Env) (pdf_path output_dir : String)
    (body_only no_toc : Bool) (theme : String) :
    Except PyExc String × List (List String) :=
  let cmd := convert_pdf_cmd pdf_path output_dir body_only no_toc theme
  ((match env.proc cmd with
    | .error e => .error e
    | .ok r =>
        if r.returncode = 0 then .ok r.stdout
        else .ok ("Error: " ++ calledProcessErrorStr cmd r.returncode)),
   [cmd])

/-- Function `convert_folder` (lines 54-63).  The command line is built inline and
ignores `body_only`, `no_toc` and `theme`. -/
def convert_folder (env : Env) (folder_path output_dir : String)
    (body_only no_toc : Bool) (theme : String) :
    Except PyExc String × List (List String) :=
  let cmd := [PDF2HTML_SCRIPT, folder_path, "-o", output_dir, "--batch"]
  ((match env.proc cmd with
    | .error e => .error e
    | .ok r =>
        if r.returncode = 0 then .ok r.stdout
        else .ok ("Error: " ++ calledProcessErrorStr cmd r.returncode)),
   [cmd])

/-- The `parts` list of `generate_command` (lines 360-373): the pdf path if
a file is selected, `-o` only for a non-default output directory, the two
boolean flags, and `--theme` only for a truthy non-default theme. -/
def generate_command_parts (pdf_file : Option String) (output_dir : String)
    (body_only no_toc : Bool) (theme : String) : List String :=
  ["/opt/pdf2html/pdf2html"]
    ++ (match pdf_file with | some f => [f] | none => [])
    ++ (if output_dir ≠ "" ∧ output_dir ≠ "output/" then ["-o", output_dir] else [])
    ++ (if body_only then ["--body-only"] else [])
    ++ (if no_toc then ["--no-toc"] else [])
    ++ (if theme ≠ "" ∧ theme ≠ "modern" then ["--theme", theme] else [])

/-- Function `generate_command` (lines 358-375): the copyable command string. -/
def generate_command (pdf_file : Option String) (output_dir : String)
    (body_only no_toc : Bool) (theme : String) : String :=
  "```bash\n" ++
    String.intercalate " "
      (generate_command_parts pdf_file output_dir body_only no_toc theme) ++
    "\n```"

/-- Python `str.startswith(pre)`.  (Defined over the character list so
that concrete instances evaluate inside the kernel.) -/
def pyStartsWith (s pre : String) : Bool := pre.toList.isPrefixOf s.toList

/-- Python `str.rstrip('/')`: drop trailing slashes. -/
def rstripSlash (s : String) : String :=
  String.mk ((s.toList.reverse.dropWhile (fun c => c == '/')).reverse)

/-- The `pathlib` slash operator on rendered paths: an absolute right operand replaces the
left, an empty left operand (`Path('')`) contributes nothing. -/
def pathJoin (a b : String) : String :=
  if pyStartsWith b "/" then b else if a = "" then b else a ++ "/" ++ b

/-- Split a character list at every occurrence of a separator character,
keeping empty groups (Python `str.split(sep)` with a one-character
separator). -/
def splitOnChar (sep : Char) (cs : List Char) : List (List Char) :=
  cs.foldr
    (fun ch acc =>
      match acc with
      | [] => [[ch]]
      | hd :: tl => if ch == sep then [] :: hd :: tl else (ch :: hd) :: tl)
    [[]]

/-- The final component of a path (`Path(p).name`): text after the last
slash, trailing slashes ignored. -/
def lastSlashComponent (p : String) : String :=
  String.mk ((splitOnChar '/' (rstripSlash p).toList).getLastD [])

/-- Index of the extension dot of a file name, when `pathlib` considers it
a suffix: the last dot at character index `i` with `0 < i < length - 1`. -/
def nameSuffixSplit (cs : List Char) : Option Nat :=
  match cs.reverse.findIdx? (fun c => c == '.') with
  | none => none
  | some j =>
      let i := cs.length - 1 - j
      if 0 < i ∧ i + 1 < cs.length then some i else none

/-- Python `Path(p).stem`: final component without its extension. -/
def pathStem (p : String) : String :=
  let name := lastSlashComponent p
  match nameSuffixSplit name.toList with
  | none => name
  | some i => String.mk (name.toList.take i)

/-- Python `Path(p).suffix`: the extension of the final component, dot included,
or `""`. -/
def pathSuffix (p : String) : String :=
  let name := lastSlashComponent p
  match nameSuffixSplit name.toList with
  | none => ""
  | some i => String.mk (name.toList.drop i)

/-- Python `f"{bytes/1024:.1f}"`, in tenths of a KB.  `bytes/1024` is
exactly representable as a double, so the printed digit is the exact
rational rounded to one decimal, ties to even. -/
def round1KB (bytes : Nat) : Nat :=
  let t := bytes * 10
  let q := t / 1024
  let r := t % 1024
  if 2 * r > 1024 then q + 1
  else if 2 * r < 1024 then q
  else if q % 2 = 0 then q else q + 1

/-- Decimal rendering `<int>.<tenth>` of a number of tenths. -/
def formatDot1 (tenths : Nat) : String :=
  toString (tenths / 10) ++ "." ++ toString (tenths % 10)

/-- Rendering `f"{bytes/1024:.1f}"` as a string. -/
def formatSizeKB (bytes : Nat) : String := formatDot1 (round1KB bytes)

/-- The preview path derived by `handle_convert` (lines 296-297):
`Path(output_dir_path) / (output_dir_path or "output") / f"{stem}.html"`
with `output_dir_path = output_dir.rstrip('/')`.  Note the directory
component repeated by the source. -/
def output_file_path (output_dir pdf_path : String) : String :=
  let output_dir_path := rstripSlash output_dir
  pathJoin
    (pathJoin output_dir_path
      (if output_dir_path ≠ "" then output_dir_path else "output"))
    (pathStem pdf_path ++ ".html")

/-- The success message yielded by `handle_convert` (lines 299-306); the
code points are the source's literal (mojibake) rendering of the
check-mark and document emoji. -/
def successMessage (output_file : String) (size : Nat) : String :=
  "\n\u201a\u00fa\u00d6 Conversion complete!\n\n\uf8ff\u00fc\u00ec\u00d1 Output: `" ++
    output_file ++
    "`\n\uf8ff\u00fc\u00ec\u00e4 File size: " ++ formatSizeKB size ++
    " KB\n\nPreview will appear below...\n        "

/-- The `FileNotFoundError` raised by `output_file.stat()` on a missing
path (line 303). -/
def statMissingExc (path : String) : PyExc :=
  .fileNotFoundError ("[Errno 2] No such file or directory: \x27" ++ path ++ "\x27")

/-- Function `handle_convert` (lines 280-315).  A generator: with no file selected
it returns an error string without yielding; otherwise it yields a status
line, runs `convert_pdf`, classifies the result by the `"Error"` prefix,
and on success queries the derived output file's size (an uncaught
exception point) before yielding the success message and then either the
preview contents or a warning (the `open`/`read` is inside `try`). -/
def handle_convert (env : Env) (pdf_file : Option String) (output_dir : String)
    (body_only no_toc : Bool) (theme : String) :
    GenResult × List (List String) :=
  match pdf_file with
  | none => (⟨[], some "\u201a\u00f9\u00e5 No PDF file selected", none⟩, [])
  | some pdf_path =>
    let y0 := "\u201a\u00e8\u2265 Reading PDF..."
    let res := convert_pdf env pdf_path output_dir body_only no_toc theme
    match res.1 with
    | .error e => (⟨[y0], none, some e⟩, res.2)
    | .ok result =>
      if pyStartsWith result "Error" then
        (⟨[y0, "\u201a\u00f9\u00e5 " ++ result], none, none⟩, res.2)
      else
        let out_file := output_file_path output_dir pdf_path
        match env.stat out_file with
        | none => (⟨[y0], none, some (statMissingExc out_file)⟩, res.2)
        | some size =>
          match env.readFile out_file with
          | .ok content =>
            (⟨[y0, successMessage out_file size,
               "\n\uf8ff\u00fc\u00eb\u00c5 " ++ content], none, none⟩, res.2)
          | .error e =>
            (⟨[y0, successMessage out_file size,
               "\u201a\u00f6\u2020\u00d4\u220f\u00e8 Could not read preview: " ++ pyStr e],
              none, none⟩, res.2)

/-- The success message yielded by `handle_batch` (lines 341-349). -/
def batchSuccessMessage (folder output_dir : String) (pdf_count : Nat) : String :=
  "\n\u201a\u00fa\u00d6 Batch conversion complete!\n\n\uf8ff\u00fc\u00ec\u00c5 Folder: " ++
    folder ++
    "\n\uf8ff\u00fc\u00ec\u00e4 Processed: " ++ toString pdf_count ++
    " files\n\uf8ff\u00fc\u00ec\u00c5 Output: " ++ output_dir ++
    "/index.html\n\nYou can now deploy this directory to Vercel.\n            "

/-- Whitespace test of Python `str.strip()` (ASCII whitespace). -/
def pyIsSpace (c : Char) : Bool :=
  c == ' ' || c == '\t' || c == '\n' || c == '\x0d' || c == '\x0b' || c == '\x0c'

/-- Python `str.lower()` (the suffixes compared here are ASCII). -/
def pyLower (s : String) : String := String.mk (s.toList.map Char.toLower)

/-- Python `str.strip()` (whitespace strip) as used on the folder path. -/
def pyStrip (s : String) : String :=
  String.mk
    (((s.toList.dropWhile pyIsSpace).reverse.dropWhile pyIsSpace).reverse)

/-- Function `handle_batch` (lines 317-352).  A generator: an empty path and a
non-directory path produce error return values before anything runs; the
whole body after the directory check is inside `try`/`except Exception`,
so every exception (including a failed launch inside `convert_folder`) is
caught and yielded as a batch-error line. -/
def handle_batch (env : Env) (folder_path output_dir : String)
    (body_only no_toc : Bool) (theme : String) :
    GenResult × List (List String) :=
  if folder_path = "" then
    (⟨[], some "\u201a\u00f9\u00e5 No folder path provided", none⟩, [])
  else
    let folder := pyStrip folder_path
    if env.isdir folder then
      let y0 := "\u201a\u00e8\u2265 Scanning folder..."
      match env.iterdir folder with
      | .error e =>
        (⟨[y0, "\u201a\u00f9\u00e5 Batch error: " ++ pyStr e], none, none⟩, [])
      | .ok entries =>
        let pdf_count :=
          (entries.filter (fun f => pyLower (pathSuffix f) = ".pdf")).length
        let y1 := "\uf8ff\u00fc\u00ec\u00e4 Found " ++ toString pdf_count ++ " PDF files"
        let y2 := "\u201a\u00e8\u2265 Starting batch conversion..."
        let res := convert_folder env folder output_dir body_only no_toc theme
        match res.1 with
        | .error e =>
          (⟨[y0, y1, y2, "\u201a\u00f9\u00e5 Batch error: " ++ pyStr e], none, none⟩,
           res.2)
        | .ok result =>
          if pyStartsWith result "Error" then
            (⟨[y0, y1, y2, "\u201a\u00f9\u00e5 " ++ result], none, none⟩, res.2)
          else
            (⟨[y0, y1, y2, batchSuccessMessage folder output_dir pdf_count],
              none, none⟩, res.2)
    else
      (⟨[], some ("\u201a\u00f9\u00e5 Folder not found: " ++ folder), none⟩, [])

/-- Function `verify_pdf2html` (lines 377-382), over an abstract
`os.path.exists` answer. -/
def verify_pdf2html (exists_check : Bool) : String :=
  if exists_check then
    "\u201a\u00fa\u00d6 pdf2html found at: " ++ PDF2HTML_SCRIPT
  else
    "\u201a\u00f9\u00e5 pdf2html not found. Install with:\n\n```bash\nsudo mkdir -p /opt/pdf2html\nsudo cp pdf2html /opt/pdf2html/\nsudo chmod +x /opt/pdf2html/pdf2html\n\n```\n\nCheck system-wide PATH:\n```bash\nexport PATH=\"/opt/pdf2html:$PATH\"\n```\n"

/-- A do-nothing environment used by concrete evaluations. -/
def envTriv : Env :=
  ⟨fun _ => .ok ⟨0, "", ""⟩, fun _ => false, fun _ => none,
   fun _ => .error (.exception ""), fun _ => .ok []⟩

example : rstripSlash "output/" = "output" := by decide
example : pathStem "doc.pdf" = "doc" := by decide
example : output_file_path "output/" "doc.pdf" = "output/output/doc.html" := by decide
example : formatSizeKB 2048 = "2.0" := by decide
example : pyStartsWith "Error: x" "Error" = true := by decide
example :
    convert_pdf_cmd "doc.pdf" "output/" true false "modern" =
      ["/opt/pdf2html/pdf2html", "doc.pdf", "-o", "output/", "--body-only",
       "--theme", "modern"] := by decide

example :
    (handle_convert envTriv (some "doc.pdf") "output/" false false "modern").1 =
      ⟨["\u201a\u00e8\u2265 Reading PDF..."], none,
       some (statMissingExc "output/output/doc.html")⟩ := by decide

lemma convert_pdf_trace (env : Env) (p o : String) (b nt : Bool) (th : String) :
    (convert_pdf env p o b nt th).2 = [convert_pdf_cmd p o b nt th] := rfl

lemma convert_folder_trace (env : Env) (f o : String) (b nt : Bool) (th : String) :
    (convert_folder env f o b nt th).2 =
      [[PDF2HTML_SCRIPT, f, "-o", o, "--batch"]] := rfl

lemma convert_pdf_run_ok (env : Env) (p o : String) (b nt : Bool) (th : String)
    (r : ProcResult) (h : env.proc (convert_pdf_cmd p o b nt th) = .ok r)
    (h0 : r.returncode = 0) :
    convert_pdf env p o b nt th = (.ok r.stdout, [convert_pdf_cmd p o b nt th]) := by
  simp only [convert_pdf, h]
  rw [if_pos h0]

lemma convert_pdf_run_fail (env : Env) (p o : String) (b nt : Bool) (th : String)
    (r : ProcResult) (h : env.proc (convert_pdf_cmd p o b nt th) = .ok r)
    (h0 : r.returncode ≠ 0) :
    convert_pdf env p o b nt th =
      (.ok ("Error: " ++
        calledProcessErrorStr (convert_pdf_cmd p o b nt th) r.returncode),
       [convert_pdf_cmd p o b nt th]) := by
  simp only [convert_pdf, h]
  rw [if_neg h0]

lemma convert_folder_run_ok (env : Env) (f o : String) (b nt : Bool) (th : String)
    (r : ProcResult) (h : env.proc [PDF2HTML_SCRIPT, f, "-o", o, "--batch"] = .ok r)
    (h0 : r.returncode = 0) :
    convert_folder env f o b nt th =
      (.ok r.stdout, [[PDF2HTML_SCRIPT, f, "-o", o, "--batch"]]) := by
  simp only [convert_folder, h]
  rw [if_pos h0]

lemma convert_folder_run_fail (env : Env) (f o : String) (b nt : Bool) (th : String)
    (r : ProcResult) (h : env.proc [PDF2HTML_SCRIPT, f, "-o", o, "--batch"] = .ok r)
    (h0 : r.returncode ≠ 0) :
    convert_folder env f o b nt th =
      (.ok ("Error: " ++
        calledProcessErrorStr [PDF2HTML_SCRIPT, f, "-o", o, "--batch"] r.returncode),
       [[PDF2HTML_SCRIPT, f, "-o", o, "--batch"]]) := by
  simp only [convert_folder, h]
  rw [if_neg h0]

lemma string_append_assoc (a b c : String) : a ++ b ++ c = a ++ (b ++ c) := by
  rw [String.congr_append a b,
      String.congr_append (String.mk (a.data ++ b.data)) c,
      String.congr_append b c,
      String.congr_append a (String.mk (b.data ++ c.data))]
  simp [List.append_assoc]

/-- C1 (counterexample): a batch request with body-only and no-toc set and a
non-default theme still produces a command line without `--body-only`,
`--no-toc` or `--theme`, contrary to the claim. -/
theorem C1_counterexample :
    "--body-only" ∉ ((convert_folder envTriv "pdfs" "output/" true true "minimal").2.headD []) ∧
    "--no-toc" ∉ ((convert_folder envTriv "pdfs" "output/" true true "minimal").2.headD []) ∧
    "--theme" ∉ ((convert_folder envTriv "pdfs" "output/" true true "minimal").2.headD []) := by
  decide

/-- C1 (amended): for every batch-mode Conversion Request the invoker runs the
external executable with exactly the folder path as positional source
argument, `-o <output_dir>` and `--batch`; the body-only, no-toc and theme
options are ignored and never passed. -/
theorem C1_theorem (env : Env) (folder_path output_dir : String)
    (body_only no_toc : Bool) (theme : String) :
    (convert_folder env folder_path output_dir body_only no_toc theme).2 =
      [[PDF2HTML_SCRIPT, folder_path, "-o", output_dir, "--batch"]] := rfl

/-- C2 (counterexample): for the request `{source: "doc.pdf", output_dir:
"output/", body_only: true, no_toc: false, theme: "modern"}` the arguments
after the executable name are not `["doc.pdf", "-o", "output/",
"--body-only"]` as claimed. -/
theorem C2_counterexample :
    (convert_pdf_cmd "doc.pdf" "output/" true false "modern").drop 1 ≠
      ["doc.pdf", "-o", "output/", "--body-only"] := by decide

/-- C2 (amended): for that request the arguments after the executable name
are `["doc.pdf", "-o", "output/", "--body-only", "--theme", "modern"]` —
`convert_pdf` passes the default theme explicitly. -/
theorem C2_theorem :
    (convert_pdf_cmd "doc.pdf" "output/" true false "modern").drop 1 =
      ["doc.pdf", "-o", "output/", "--body-only", "--theme", "modern"] := by decide

/-- C7 (confirmed): when the external process exits with status zero, the
single-file invoker returns its captured standard output verbatim. -/
theorem C7_theorem (env : Env) (p o : String) (b nt : Bool) (th : String)
    (r : ProcResult) (h : env.proc (convert_pdf_cmd p o b nt th) = .ok r)
    (h0 : r.returncode = 0) :
    (convert_pdf env p o b nt th).1 = .ok r.stdout := by
  rw [convert_pdf_run_ok env p o b nt th r h h0]

/-- A successful environment used as the witness input for C7. -/
def envOk : Env :=
  ⟨fun _ => .ok ⟨0, "conversion report", ""⟩, fun _ => false, fun _ => none,
   fun _ => .error (.exception ""), fun _ => .ok []⟩

/-- C7 witness: the theorem instantiated at a concrete request. -/
theorem C7_witness :
    envOk.proc (convert_pdf_cmd "doc.pdf" "output/" false false "modern") =
      .ok ⟨0, "conversion report", ""⟩ ∧
    (⟨0, "conversion report", ""⟩ : ProcResult).returncode = 0 ∧
    (convert_pdf envOk "doc.pdf" "output/" false false "modern").1 =
      .ok (⟨0, "conversion report", ""⟩ : ProcResult).stdout :=
  ⟨rfl, rfl,
   C7_theorem envOk "doc.pdf" "output/" false false "modern"
     ⟨0, "conversion report", ""⟩ rfl rfl⟩

/-- C3 (confirmed): with the default theme `"modern"` the command preview
omits `--theme` while the actual invocation still ends with `--theme
modern`; with any other non-empty theme both the invocation and the
preview contain `--theme <name>`. -/
theorem C3_theorem (pdf_file : Option String) (output_dir pdf_path th : String)
    (body_only no_toc : Bool)
    (hpf : pdf_file ≠ some "--theme") (hod : output_dir ≠ "--theme")
    (hth1 : th ≠ "modern") (hth2 : th ≠ "") :
    "--theme" ∉ generate_command_parts pdf_file output_dir body_only no_toc "modern" ∧
    ["--theme", "modern"] <:+ convert_pdf_cmd pdf_path output_dir body_only no_toc "modern" ∧
    ["--theme", th] <:+ convert_pdf_cmd pdf_path output_dir body_only no_toc th ∧
    ["--theme", th] <:+ generate_command_parts pdf_file output_dir body_only no_toc th := by
  refine ⟨?_, ?_, ?_, ?_⟩
  · intro hmem
    rcases pdf_file with _ | f
    · simp [generate_command_parts, hod, Ne.symm hod] at hmem
    · have hf : f ≠ "--theme" := by
        intro hh
        exact hpf (by rw [hh])
      simp [generate_command_parts, hod, Ne.symm hod, hf, Ne.symm hf] at hmem
  · rw [convert_pdf_cmd, if_pos (by decide : ("modern" : String) ≠ "")]
    exact List.suffix_append _ _
  · rw [convert_pdf_cmd, if_pos hth2]
    exact List.suffix_append _ _
  · have h4 : (if th ≠ "" ∧ th ≠ "modern" then ["--theme", th] else []) = ["--theme", th] :=
      if_pos ⟨hth2, hth1⟩
    rw [generate_command_parts.eq_def, h4]
    exact List.suffix_append _ _

/-- C3 witness: the theorem at the sample request, with theme `"minimal"`
as the non-default case. -/
theorem C3_witness :
    (some "doc.pdf" : Option String) ≠ some "--theme" ∧
    ("output/" : String) ≠ "--theme" ∧
    ("minimal" : String) ≠ "modern" ∧
    ("minimal" : String) ≠ "" ∧
    ("--theme" ∉ generate_command_parts (some "doc.pdf") "output/" false false "modern" ∧
     ["--theme", "modern"] <:+ convert_pdf_cmd "doc.pdf" "output/" false false "modern" ∧
     ["--theme", "minimal"] <:+ convert_pdf_cmd "doc.pdf" "output/" false false "minimal" ∧
     ["--theme", "minimal"] <:+
       generate_command_parts (some "doc.pdf") "output/" false false "minimal") :=
  ⟨by decide, by decide, by decide, by decide,
   C3_theorem (some "doc.pdf") "output/" "doc.pdf" "minimal" false false
     (by decide) (by decide) (by decide) (by decide)⟩

/-- C8 (confirmed): setting body-only adds exactly one `--body-only` token
and setting no-toc adds exactly one `--no-toc` token to the single-file
argument list; unset flags contribute zero occurrences.  The hypotheses
rule out the degenerate requests whose own path, output directory or theme
literally equals one of the two flag tokens. -/
theorem C8_theorem (p o th : String) (b nt : Bool)
    (hp1 : p ≠ "--body-only") (hp2 : p ≠ "--no-toc")
    (ho1 : o ≠ "--body-only") (ho2 : o ≠ "--no-toc")
    (ht1 : th ≠ "--body-only") (ht2 : th ≠ "--no-toc") :
    (convert_pdf_cmd p o b nt th).count "--body-only" = (if b then 1 else 0) ∧
    (convert_pdf_cmd p o b nt th).count "--no-toc" = (if nt then 1 else 0) := by
  cases b <;> cases nt <;>
    by_cases ho : o = "" <;> by_cases hth : th = "" <;>
      simp [convert_pdf_cmd, PDF2HTML_SCRIPT, ho, hth, List.count_cons, List.count_append,
        hp1, hp2, ho1, ho2, ht1, ht2, Ne.symm hp1, Ne.symm hp2, Ne.symm ho1, Ne.symm ho2,
        Ne.symm ht1, Ne.symm ht2]

/-- C8 witness: the theorem at the sample request with body-only set and
no-toc unset. -/
theorem C8_witness :
    ("doc.pdf" : String) ≠ "--body-only" ∧ ("doc.pdf" : String) ≠ "--no-toc" ∧
    ("output/" : String) ≠ "--body-only" ∧ ("output/" : String) ≠ "--no-toc" ∧
    ("modern" : String) ≠ "--body-only" ∧ ("modern" : String) ≠ "--no-toc" ∧
    ((convert_pdf_cmd "doc.pdf" "output/" true false "modern").count "--body-only" =
        (if true then 1 else 0) ∧
     (convert_pdf_cmd "doc.pdf" "output/" true false "modern").count "--no-toc" =
        (if false then 1 else 0)) :=
  ⟨by decide, by decide, by decide, by decide, by decide, by decide,
   C8_theorem "doc.pdf" "output/" "modern" true false (by decide) (by decide)
     (by decide) (by decide) (by decide) (by decide)⟩

/-- C9 (confirmed): a batch request whose (stripped) folder path is not an
existing directory returns an error result without yielding anything and
without the external executable ever being invoked. -/
theorem C9_theorem (env : Env) (fp od : String) (b nt : Bool) (th : String)
    (h : env.isdir (pyStrip fp) = false) :
    (handle_batch env fp od b nt th).2 = [] ∧
    (handle_batch env fp od b nt th).1.yields = [] ∧
    ((handle_batch env fp od b nt th).1.retval =
        some "\u201a\u00f9\u00e5 No folder path provided" ∨
     (handle_batch env fp od b nt th).1.retval =
        some ("\u201a\u00f9\u00e5 Folder not found: " ++ pyStrip fp)) := by
  by_cases hfp : fp = "" <;> simp [handle_batch, hfp, h]

/-- C9 witness: the theorem at a concrete non-directory path, under an
environment whose filesystem has no directories. -/
theorem C9_witness :
    envTriv.isdir (pyStrip "/no/such/folder") = false ∧
    ((handle_batch envTriv "/no/such/folder" "output/" false false "modern").2 = [] ∧
     (handle_batch envTriv "/no/such/folder" "output/" false false "modern").1.yields = [] ∧
     ((handle_batch envTriv "/no/such/folder" "output/" false false "modern").1.retval =
         some "\u201a\u00f9\u00e5 No folder path provided" ∨
      (handle_batch envTriv "/no/such/folder" "output/" false false "modern").1.retval =
         some ("\u201a\u00f9\u00e5 Folder not found: " ++ pyStrip "/no/such/folder"))) :=
  ⟨rfl, C9_theorem envTriv "/no/such/folder" "output/" false false "modern" rfl⟩

/-- C10 (confirmed): the single-file handler classifies by the `"Error"`
prefix of the invoker result alone, so a zero-exit run whose stdout begins
with `"Error"` is reported as a failure (the cross-marked line) and the
success message is never produced. -/
theorem C10_theorem (env : Env) (p o : String) (b nt : Bool) (th : String)
    (r : ProcResult) (h : env.proc (convert_pdf_cmd p o b nt th) = .ok r)
    (h0 : r.returncode = 0) (h1 : pyStartsWith r.stdout "Error" = true) :
    (handle_convert env (some p) o b nt th).1 =
      ⟨["\u201a\u00e8\u2265 Reading PDF...", "\u201a\u00f9\u00e5 " ++ r.stdout], none, none⟩ := by
  have hc := convert_pdf_run_ok env p o b nt th r h h0
  simp only [handle_convert, hc, h1, if_true]

/-- A zero-exit environment whose stdout itself begins with `"Error"`,
used as the witness input for C10. -/
def envErrorStdout : Env :=
  ⟨fun _ => .ok ⟨0, "Error-shaped output", ""⟩, fun _ => false, fun _ => none,
   fun _ => .error (.exception ""), fun _ => .ok []⟩

/-- C10 witness: the theorem at a concrete zero-exit, `"Error"`-prefixed
run. -/
theorem C10_witness :
    envErrorStdout.proc (convert_pdf_cmd "doc.pdf" "output/" false false "modern") =
      .ok ⟨0, "Error-shaped output", ""⟩ ∧
    (⟨0, "Error-shaped output", ""⟩ : ProcResult).returncode = 0 ∧
    pyStartsWith (⟨0, "Error-shaped output", ""⟩ : ProcResult).stdout "Error" = true ∧
    (handle_convert envErrorStdout (some "doc.pdf") "output/" false false "modern").1 =
      ⟨["\u201a\u00e8\u2265 Reading PDF...",
        "\u201a\u00f9\u00e5 " ++ (⟨0, "Error-shaped output", ""⟩ : ProcResult).stdout], none, none⟩ :=
  ⟨rfl, rfl, by decide,
   C10_theorem envErrorStdout "doc.pdf" "output/" false false "modern"
     ⟨0, "Error-shaped output", ""⟩ rfl rfl (by decide)⟩

lemma convert_folder_run_oserr (env : Env) (f o : String) (b nt : Bool) (th : String)
    (e : PyExc) (h : env.proc [PDF2HTML_SCRIPT, f, "-o", o, "--batch"] = .error e) :
    convert_folder env f o b nt th =
      (.error e, [[PDF2HTML_SCRIPT, f, "-o", o, "--batch"]]) := by
  simp only [convert_folder, h]

lemma handle_batch_exc_none (env : Env) (fp od : String) (b nt : Bool) (th : String) :
    (handle_batch env fp od b nt th).1.exc = none := by
  by_cases hfp : fp = ""
  · simp [handle_batch, hfp]
  · cases hd : env.isdir (pyStrip fp)
    · simp [handle_batch, hfp, hd]
    · rcases hit : env.iterdir (pyStrip fp) with e | entries
      · simp [handle_batch, hfp, hd, hit]
      · rcases hpr : env.proc [PDF2HTML_SCRIPT, pyStrip fp, "-o", od, "--batch"]
          with e2 | r
        · have hcf := convert_folder_run_oserr env (pyStrip fp) od b nt th e2 hpr
          simp [handle_batch, hfp, hd, hit, hcf]
        · by_cases hrc : r.returncode = 0
          · have hcf := convert_folder_run_ok env (pyStrip fp) od b nt th r hpr hrc
            cases hsw : pyStartsWith r.stdout "Error" <;>
              simp [handle_batch, hfp, hd, hit, hcf, hsw]
          · have hcf := convert_folder_run_fail env (pyStrip fp) od b nt th r hpr hrc
            cases hsw : pyStartsWith
                ("Error: " ++ calledProcessErrorStr
                  [PDF2HTML_SCRIPT, pyStrip fp, "-o", od, "--batch"] r.returncode)
                "Error" <;>
              simp [handle_batch, hfp, hd, hit, hcf, hsw]

/-- A failing environment: every launch runs to exit status 1 with captured
output "stdout-A" and captured stderr "diagnostic-A". -/
def envDiagA : Env :=
  ⟨fun _ => .ok ⟨1, "stdout-A", "diagnostic-A"⟩, fun _ => false, fun _ => none,
   fun _ => .error (.exception ""), fun _ => .ok []⟩

/-- Like `envDiagA` but with different captured stdout and stderr. -/
def envDiagB : Env :=
  ⟨fun _ => .ok ⟨1, "stdout-B", "diagnostic-B"⟩, fun _ => false, fun _ => none,
   fun _ => .error (.exception ""), fun _ => .ok []⟩

/-- C4 (counterexample): two failing runs that differ only in their captured
stdout/stderr produce the same error result, and that result is the
exception rendering (command plus exit status) — so the result does not
carry the captured diagnostic text, contrary to the claim. -/
theorem C4_counterexample :
    (convert_pdf envDiagA "doc.pdf" "output/" false false "modern").1 =
      (convert_pdf envDiagB "doc.pdf" "output/" false false "modern").1 ∧
    (convert_pdf envDiagA "doc.pdf" "output/" false false "modern").1 =
      .ok ("Error: " ++
        calledProcessErrorStr (convert_pdf_cmd "doc.pdf" "output/" false false "modern") 1) :=
  ⟨rfl, rfl⟩

/-- C4 (amended): a non-zero exit always yields a result string beginning
with the error marker `"Error"`, carrying the exception rendering (the
command line and the exit status, not the captured stderr/stdout), never
the raw stdout; exactly one invocation is made (no retry), in single-file
and batch mode alike, and only zero versus non-zero is inspected. -/
theorem C4_theorem (env : Env) (p o : String) (b nt : Bool) (th fol : String)
    (r1 r2 : ProcResult)
    (h1 : env.proc (convert_pdf_cmd p o b nt th) = .ok r1)
    (h2 : r1.returncode ≠ 0)
    (h3 : env.proc [PDF2HTML_SCRIPT, fol, "-o", o, "--batch"] = .ok r2)
    (h4 : r2.returncode ≠ 0) :
    ((convert_pdf env p o b nt th).1 =
       .ok ("Error: " ++
         calledProcessErrorStr (convert_pdf_cmd p o b nt th) r1.returncode) ∧
     (∃ t, "Error: " ++
         calledProcessErrorStr (convert_pdf_cmd p o b nt th) r1.returncode =
       "Error" ++ t) ∧
     (convert_pdf env p o b nt th).2 = [convert_pdf_cmd p o b nt th]) ∧
    ((convert_folder env fol o b nt th).1 =
       .ok ("Error: " ++
         calledProcessErrorStr [PDF2HTML_SCRIPT, fol, "-o", o, "--batch"] r2.returncode) ∧
     (∃ t, "Error: " ++
         calledProcessErrorStr [PDF2HTML_SCRIPT, fol, "-o", o, "--batch"] r2.returncode =
       "Error" ++ t) ∧
     (convert_folder env fol o b nt th).2 =
       [[PDF2HTML_SCRIPT, fol, "-o", o, "--batch"]]) := by
  have hs := convert_pdf_run_fail env p o b nt th r1 h1 h2
  have hb := convert_folder_run_fail env fol o b nt th r2 h3 h4
  have hlit : ("Error: " : String) = "Error" ++ ": " := by decide
  refine ⟨⟨by rw [hs],
           ⟨": " ++ calledProcessErrorStr (convert_pdf_cmd p o b nt th) r1.returncode, ?_⟩,
           rfl⟩,
          ⟨by rw [hb],
           ⟨": " ++
              calledProcessErrorStr [PDF2HTML_SCRIPT, fol, "-o", o, "--batch"] r2.returncode,
            ?_⟩,
           rfl⟩⟩
  · rw [hlit, string_append_assoc]
  · rw [hlit, string_append_assoc]

/-- C4 witness: the amended theorem at a concrete failing environment. -/
theorem C4_witness :
    envDiagA.proc (convert_pdf_cmd "doc.pdf" "output/" false false "modern") =
      .ok ⟨1, "stdout-A", "diagnostic-A"⟩ ∧
    (⟨1, "stdout-A", "diagnostic-A"⟩ : ProcResult).returncode ≠ 0 ∧
    envDiagA.proc [PDF2HTML_SCRIPT, "pdfs", "-o", "output/", "--batch"] =
      .ok ⟨1, "stdout-A", "diagnostic-A"⟩ ∧
    (((convert_pdf envDiagA "doc.pdf" "output/" false false "modern").1 =
        .ok ("Error: " ++
          calledProcessErrorStr (convert_pdf_cmd "doc.pdf" "output/" false false "modern")
            (⟨1, "stdout-A", "diagnostic-A"⟩ : ProcResult).returncode) ∧
      (∃ t, "Error: " ++
          calledProcessErrorStr (convert_pdf_cmd "doc.pdf" "output/" false false "modern")
            (⟨1, "stdout-A", "diagnostic-A"⟩ : ProcResult).returncode =
        "Error" ++ t) ∧
      (convert_pdf envDiagA "doc.pdf" "output/" false false "modern").2 =
        [convert_pdf_cmd "doc.pdf" "output/" false false "modern"]) ∧
     ((convert_folder envDiagA "pdfs" "output/" false false "modern").1 =
        .ok ("Error: " ++
          calledProcessErrorStr [PDF2HTML_SCRIPT, "pdfs", "-o", "output/", "--batch"]
            (⟨1, "stdout-A", "diagnostic-A"⟩ : ProcResult).returncode) ∧
      (∃ t, "Error: " ++
          calledProcessErrorStr [PDF2HTML_SCRIPT, "pdfs", "-o", "output/", "--batch"]
            (⟨1, "stdout-A", "diagnostic-A"⟩ : ProcResult).returncode =
        "Error" ++ t) ∧
      (convert_folder envDiagA "pdfs" "output/" false false "modern").2 =
        [[PDF2HTML_SCRIPT, "pdfs", "-o", "output/", "--batch"]])) :=
  ⟨rfl, by decide, rfl,
   C4_theorem envDiagA "doc.pdf" "output/" false false "modern" "pdfs"
     ⟨1, "stdout-A", "diagnostic-A"⟩ ⟨1, "stdout-A", "diagnostic-A"⟩
     rfl (by decide) rfl (by decide)⟩

/-- An environment in which the external executable is missing: every
launch raises `FileNotFoundError`. -/
def envMissingExe : Env :=
  ⟨fun _ => .error (.fileNotFoundError
      "[Errno 2] No such file or directory: \x27/opt/pdf2html/pdf2html\x27"),
   fun _ => false, fun _ => none, fun _ => .error (.exception ""), fun _ => .ok []⟩

/-- C5 (counterexample): with the executable missing, the launch exception
is not caught (`except` only covers `CalledProcessError`), so it
propagates out of `convert_pdf` and escapes `handle_convert` uncaught —
contrary to the claim that no error escapes the invoker layer. -/
theorem C5_counterexample :
    (convert_pdf envMissingExe "doc.pdf" "output/" false false "modern").1 =
      .error (.fileNotFoundError
        "[Errno 2] No such file or directory: \x27/opt/pdf2html/pdf2html\x27") ∧
    (handle_convert envMissingExe (some "doc.pdf") "output/" false false "modern").1.exc =
      some (.fileNotFoundError
        "[Errno 2] No such file or directory: \x27/opt/pdf2html/pdf2html\x27") :=
  ⟨rfl, rfl⟩

/-- C5 (amended): when the launch itself succeeds, both invokers always
return a result string (a non-zero exit is surfaced as text, no exception
escapes), and the batch handler catches every exception; but an OS-level
launch failure such as a missing executable propagates out of
`convert_pdf` uncaught. -/
theorem C5_theorem (env : Env) (p o : String) (b nt : Bool) (th fol fp : String)
    (r1 r2 : ProcResult)
    (h1 : env.proc (convert_pdf_cmd p o b nt th) = .ok r1)
    (h2 : env.proc [PDF2HTML_SCRIPT, fol, "-o", o, "--batch"] = .ok r2) :
    (∃ s, (convert_pdf env p o b nt th).1 = .ok s) ∧
    (∃ s2, (convert_folder env fol o b nt th).1 = .ok s2) ∧
    (handle_batch env fp o b nt th).1.exc = none := by
  refine ⟨?_, ?_, handle_batch_exc_none env fp o b nt th⟩
  · by_cases h0 : r1.returncode = 0
    · exact ⟨r1.stdout, by rw [convert_pdf_run_ok env p o b nt th r1 h1 h0]⟩
    · exact ⟨_, by rw [convert_pdf_run_fail env p o b nt th r1 h1 h0]⟩
  · by_cases h0 : r2.returncode = 0
    · exact ⟨r2.stdout, by rw [convert_folder_run_ok env fol o b nt th r2 h2 h0]⟩
    · exact ⟨_, by rw [convert_folder_run_fail env fol o b nt th r2 h2 h0]⟩

/-- C5 witness: the amended theorem at a concrete failing-but-launching
environment. -/
theorem C5_witness :
    envDiagB.proc (convert_pdf_cmd "doc.pdf" "output/" false false "modern") =
      .ok ⟨1, "stdout-B", "diagnostic-B"⟩ ∧
    envDiagB.proc [PDF2HTML_SCRIPT, "pdfs", "-o", "output/", "--batch"] =
      .ok ⟨1, "stdout-B", "diagnostic-B"⟩ ∧
    ((∃ s, (convert_pdf envDiagB "doc.pdf" "output/" false false "modern").1 = .ok s) ∧
     (∃ s2, (convert_folder envDiagB "pdfs" "output/" false false "modern").1 = .ok s2) ∧
     (handle_batch envDiagB "pdfs" "output/" false false "modern").1.exc = none) :=
  ⟨rfl, rfl,
   C5_theorem envDiagB "doc.pdf" "output/" false false "modern" "pdfs" "pdfs"
     ⟨1, "stdout-B", "diagnostic-B"⟩ ⟨1, "stdout-B", "diagnostic-B"⟩ rfl rfl⟩

/-- A zero-exit environment whose filesystem contains no files at all, so
the derived output file is missing. -/
def envStat0 : Env :=
  ⟨fun _ => .ok ⟨0, "converted", ""⟩, fun _ => false, fun _ => none,
   fun _ => .error (.exception "unused"), fun _ => .ok []⟩

/-- C6 (counterexample): with a zero exit but a missing output file, the
size query raises before the success message, so the handler yields
neither the warning nor the completion message — an uncaught
`FileNotFoundError` escapes instead, contrary to the claim. -/
theorem C6_counterexample :
    (handle_convert envStat0 (some "doc.pdf") "output/" false false "modern").1.yields =
      ["\u201a\u00e8\u2265 Reading PDF..."] ∧
    (handle_convert envStat0 (some "doc.pdf") "output/" false false "modern").1.exc =
      some (statMissingExc "output/output/doc.html") := by
  decide

/-- C6 (amended): when the zero-exit conversion's derived output file
exists but is unreadable, the handler still yields the success message and
then a warning, with no exception; when the output file is missing, the
size query raises an uncaught exception before the success message. -/
theorem C6_theorem (env : Env) (p o : String) (b nt : Bool) (th : String)
    (r : ProcResult) (size : Nat) (e : PyExc)
    (h : env.proc (convert_pdf_cmd p o b nt th) = .ok r)
    (h0 : r.returncode = 0)
    (h1 : pyStartsWith r.stdout "Error" = false)
    (h2 : env.stat (output_file_path o p) = some size)
    (h3 : env.readFile (output_file_path o p) = .error e) :
    (handle_convert env (some p) o b nt th).1 =
      ⟨["\u201a\u00e8\u2265 Reading PDF...",
        successMessage (output_file_path o p) size,
        "\u201a\u00f6\u2020\u00d4\u220f\u00e8 Could not read preview: " ++ pyStr e],
       none, none⟩ := by
  have hc := convert_pdf_run_ok env p o b nt th r h h0
  simp only [handle_convert, hc, h1, Bool.false_eq_true, if_false, h2, h3]

/-- A zero-exit environment whose output file exists (2048 bytes) but
cannot be opened for reading. -/
def envPreviewFail : Env :=
  ⟨fun _ => .ok ⟨0, "done", ""⟩, fun _ => false, fun _ => some 2048,
   fun _ => .error (.oserror
     "[Errno 13] Permission denied: \x27output/output/doc.html\x27"),
   fun _ => .ok []⟩

/-- C6 witness: the amended theorem at a concrete unreadable-output-file
environment. -/
theorem C6_witness :
    envPreviewFail.proc (convert_pdf_cmd "doc.pdf" "output/" false false "modern") =
      .ok ⟨0, "done", ""⟩ ∧
    (⟨0, "done", ""⟩ : ProcResult).returncode = 0 ∧
    pyStartsWith (⟨0, "done", ""⟩ : ProcResult).stdout "Error" = false ∧
    envPreviewFail.stat (output_file_path "output/" "doc.pdf") = some 2048 ∧
    envPreviewFail.readFile (output_file_path "output/" "doc.pdf") =
      .error (.oserror "[Errno 13] Permission denied: \x27output/output/doc.html\x27") ∧
    (handle_convert envPreviewFail (some "doc.pdf") "output/" false false "modern").1 =
      ⟨["\u201a\u00e8\u2265 Reading PDF...",
        successMessage (output_file_path "output/" "doc.pdf") 2048,
        "\u201a\u00f6\u2020\u00d4\u220f\u00e8 Could not read preview: " ++
          pyStr (.oserror "[Errno 13] Permission denied: \x27output/output/doc.html\x27")],
       none, none⟩ :=
  ⟨rfl, rfl, by decide, rfl, rfl,
   C6_theorem envPreviewFail "doc.pdf" "output/" false false "modern"
     ⟨0, "done", ""⟩ 2048
     (.oserror "[Errno 13] Permission denied: \x27output/output/doc.html\x27")
     rfl rfl (by decide) rfl rfl⟩
